import Mathlib

/-!
Verification of the tax-estimation calculator (`calculateAllMetrics` and its
helpers in `src/App.tsx`, with the bracket/benchmark constants from
`src/constants.ts`, and the earlier million-unit revision of the same function
found in the unnamed source revisions).

Modelling conventions of the shallow embedding:
* JavaScript numbers are modelled by exact rationals `ℚ`; all the arithmetic
  the claims are about (sums, differences, products by literal rates such as
  `0.06`, division `12 / settlementMonth`) is exact rational arithmetic.
* A raw input field (a TS string fed through `Number(s) || 0`) is modelled as
  `Option ℚ`: `some q` is a string parsing to the number `q`, `none` is a
  blank or non-numeric string (whose `Number` image, `0` or `NaN`, is coerced
  to `0` by `|| 0`).  The coercion `Number(s) || 0` is `Option.getD · 0`.
* The TS `EntityType = 'individual' | 'corporate' | null` is
  `Option EntityType` with `none` for `null`.
* The bracket field `limit: Infinity` is modelled as `none : Option ℚ`, and
  the comparison `income <= bracket.limit` is true for that bracket.
* The TS result record with all-optional fields is a structure of `Option ℚ`
  fields; the short-circuit `return {}` is the record with every field `none`.
-/

/-- `EntityType` — the two concrete business entity kinds; the TS `null`
case is carried separately as `Option EntityType`. -/
inductive EntityType where
  | individual
  | corporate
deriving DecidableEq

/-- `TaxBracket` from `src/constants.ts`: `limit` is `none` for the unbounded
(`Infinity`) bracket. -/
structure TaxBracket where
  limit : Option ℚ
  rate : ℚ
  deduction : ℚ
deriving DecidableEq

/-- `INDIVIDUAL_TAX_BRACKETS` from `src/constants.ts`. -/
def INDIVIDUAL_TAX_BRACKETS : List TaxBracket := [
  ⟨some 14000000, 0.06, 0⟩,
  ⟨some 50000000, 0.15, 1260000⟩,
  ⟨some 88000000, 0.24, 5760000⟩,
  ⟨some 150000000, 0.35, 15440000⟩,
  ⟨some 300000000, 0.38, 19940000⟩,
  ⟨some 500000000, 0.40, 25940000⟩,
  ⟨some 1000000000, 0.42, 35940000⟩,
  ⟨none, 0.45, 65940000⟩
]

/-- `CORPORATE_TAX_BRACKETS` from `src/constants.ts`. -/
def CORPORATE_TAX_BRACKETS : List TaxBracket := [
  ⟨some 200000000, 0.09, 0⟩,
  ⟨some 20000000000, 0.19, 20000000⟩,
  ⟨some 300000000000, 0.21, 420000000⟩,
  ⟨none, 0.24, 9420000000⟩
]

/-- `BASIC_DEDUCTION` from `src/constants.ts`. -/
def BASIC_DEDUCTION : ℚ := 1500000

/-- One industry's profit margins, from `src/constants.ts`. -/
structure ProfitMargin where
  individual : ℚ
  corporate : ℚ
deriving DecidableEq

/-- `INDUSTRY_PROFIT_MARGINS` from `src/constants.ts`, as an association
list (the TS `Record` is only read through key lookup). -/
def INDUSTRY_PROFIT_MARGINS : List (String × ProfitMargin) := [
  ("도소매업", ⟨0.117, 0.045⟩),
  ("제조업", ⟨0.0431, 0.023⟩),
  ("음식숙박업", ⟨0.0889, 0.03⟩),
  ("서비스업", ⟨0.0851, 0.016⟩),
  ("건설업", ⟨0.1219, 0.043⟩),
  ("부동산업", ⟨0.1058, 0.02⟩)
]

/-- `YearData` from `src/types.ts`: six raw input fields, each an optionally
blank/invalid numeric string (see the modelling conventions above). -/
structure YearData where
  revenue : Option ℚ
  cogs : Option ℚ
  sga : Option ℚ
  nonOpIncome : Option ℚ
  nonOpExpense : Option ℚ
  additionalExpenses : Option ℚ
deriving DecidableEq

/-- `Number(field) || 0`: the numeric value of a raw field, with blank or
non-numeric input coerced to `0`. -/
def numValue (o : Option ℚ) : ℚ := o.getD 0

/-- `CalculationResult` from `src/types.ts`: every field optional, and the
`Unset`-entity short circuit returns the record with every field absent. -/
structure CalculationResult where
  numRevenue : Option ℚ := none
  numCogs : Option ℚ := none
  grossProfit : Option ℚ := none
  numSga : Option ℚ := none
  operatingIncome : Option ℚ := none
  numNonOpIncome : Option ℚ := none
  numNonOpExpense : Option ℚ := none
  numAdditionalExpenses : Option ℚ := none
  currentNetIncomeBeforeAdjustment : Option ℚ := none
  currentNetIncomeAfterAdjustment : Option ℚ := none
  annualizedRevenue : Option ℚ := none
  annualizedCogs : Option ℚ := none
  annualizedGrossProfit : Option ℚ := none
  annualizedSga : Option ℚ := none
  annualizedOperatingIncome : Option ℚ := none
  annualizedNonOpIncome : Option ℚ := none
  annualizedNonOpExpense : Option ℚ := none
  annualizedNetIncomeBeforeAdjustment : Option ℚ := none
  annualizedNetIncomeAfterAdjustment : Option ℚ := none
  baseTaxAfter : Option ℚ := none
  taxCreditAmountAfter : Option ℚ := none
  taxAfterCredit : Option ℚ := none
  finalTaxBefore : Option ℚ := none
  finalTaxAfter : Option ℚ := none
  taxSavings : Option ℚ := none
  safeProfit : Option ℚ := none
  profitMargin : Option ℚ := none
deriving DecidableEq

/-- The empty result `{}` returned when the entity type is unset. -/
def emptyCalculationResult : CalculationResult := {}

/-- `income <= bracket.limit`, with the `Infinity` limit (`none`) always
satisfied. -/
def withinLimit (income : ℚ) (b : TaxBracket) : Bool :=
  match b.limit with
  | none => true
  | some l => decide (income ≤ l)

/-- The bracket-scanning loop of `calculateTax` (`src/App.tsx` lines 50–56):
`applicableBracket` starts as the last bracket and the loop picks the first
bracket whose limit accommodates the income, breaking there. -/
def findBracket (income : ℚ) : List TaxBracket → TaxBracket → TaxBracket
  | [], acc => acc
  | b :: rest, acc => if withinLimit income b then b else findBracket income rest acc

/-- The bracket table selected for an entity type
(`src/App.tsx` line 49). -/
def bracketsFor : EntityType → List TaxBracket
  | .individual => INDIVIDUAL_TAX_BRACKETS
  | .corporate => CORPORATE_TAX_BRACKETS

/-- `calculateTax` (`src/App.tsx` lines 46–58), with the surrounding
closure's `entityType` made an explicit argument. -/
def calculateTaxFor (entityType : EntityType) (income : ℚ) : ℚ :=
  if income ≤ 0 then 0
  else
    let brackets := bracketsFor entityType
    let applicableBracket := findBracket income brackets (brackets.getLastD ⟨none, 0, 0⟩)
    income * applicableBracket.rate - applicableBracket.deduction

/-- `annualizationFactor` (`src/App.tsx` line 27):
`settlementMonth > 0 ? 12 / settlementMonth : 0`. -/
def annualizationFactor (settlementMonth : ℚ) : ℚ :=
  if settlementMonth > 0 then 12 / settlementMonth else 0

/-- The industry profit margin for an entity type, `0` when the industry key
is absent from the benchmark table (`src/App.tsx` lines 74–75). -/
def profitMarginFor (industry : String) (entityType : EntityType) : ℚ :=
  match INDUSTRY_PROFIT_MARGINS.lookup industry with
  | some pm => match entityType with
    | .individual => pm.individual
    | .corporate => pm.corporate
  | none => 0

/-- `calculateAllMetrics` (`src/App.tsx` lines 15–86), raw-currency-unit
revision: inputs are used directly, with no unit scaling. -/
def calculateAllMetrics (data : YearData) (settlementMonth : ℚ)
    (entityType : Option EntityType) (includeLocalTax : Bool)
    (taxCreditRate : ℚ) (industry : String) : CalculationResult :=
  match entityType with
  | none => emptyCalculationResult
  | some entityType =>
    let numRevenue := numValue data.revenue
    let numCogs := numValue data.cogs
    let numSga := numValue data.sga
    let numNonOpIncome := numValue data.nonOpIncome
    let numNonOpExpense := numValue data.nonOpExpense
    let numAdditionalExpenses := numValue data.additionalExpenses
    let factor := annualizationFactor settlementMonth
    let grossProfit := numRevenue - numCogs
    let operatingIncome := grossProfit - numSga
    let currentNetIncomeBeforeAdjustment := operatingIncome + numNonOpIncome - numNonOpExpense
    let currentNetIncomeAfterAdjustment := currentNetIncomeBeforeAdjustment - numAdditionalExpenses
    let annualizedRevenue := numRevenue * factor
    let annualizedCogs := numCogs * factor
    let annualizedSga := numSga * factor
    let annualizedNonOpIncome := numNonOpIncome * factor
    let annualizedNonOpExpense := numNonOpExpense * factor
    let annualizedGrossProfit := grossProfit * factor
    let annualizedOperatingIncome := operatingIncome * factor
    let annualizedNetIncomeBeforeAdjustment :=
      annualizedOperatingIncome + annualizedNonOpIncome - annualizedNonOpExpense
    let annualizedNetIncomeAfterAdjustment :=
      annualizedNetIncomeBeforeAdjustment - numAdditionalExpenses
    let deduction := if entityType = EntityType.individual then BASIC_DEDUCTION else 0
    let taxableIncomeBefore := max 0 (annualizedNetIncomeBeforeAdjustment - deduction)
    let baseTaxBefore := calculateTaxFor entityType taxableIncomeBefore
    let taxableIncomeAfter := max 0 (annualizedNetIncomeAfterAdjustment - deduction)
    let baseTaxAfter := calculateTaxFor entityType taxableIncomeAfter
    let taxCreditAmountAfter := baseTaxAfter * taxCreditRate
    let taxAfterCredit := baseTaxAfter - taxCreditAmountAfter
    let finalTaxBefore := (baseTaxBefore * (1 - taxCreditRate)) * (if includeLocalTax then 1.1 else 1)
    let finalTaxAfter := taxAfterCredit * (if includeLocalTax then 1.1 else 1)
    let taxSavings := finalTaxBefore - finalTaxAfter
    let profitMargin := profitMarginFor industry entityType
    let safeProfit := annualizedRevenue * profitMargin
    { numRevenue := some numRevenue
      numCogs := some numCogs
      grossProfit := some grossProfit
      numSga := some numSga
      operatingIncome := some operatingIncome
      numNonOpIncome := some numNonOpIncome
      numNonOpExpense := some numNonOpExpense
      numAdditionalExpenses := some numAdditionalExpenses
      currentNetIncomeBeforeAdjustment := some currentNetIncomeBeforeAdjustment
      currentNetIncomeAfterAdjustment := some currentNetIncomeAfterAdjustment
      annualizedRevenue := some annualizedRevenue
      annualizedCogs := some annualizedCogs
      annualizedGrossProfit := some annualizedGrossProfit
      annualizedSga := some annualizedSga
      annualizedOperatingIncome := some annualizedOperatingIncome
      annualizedNonOpIncome := some annualizedNonOpIncome
      annualizedNonOpExpense := some annualizedNonOpExpense
      annualizedNetIncomeBeforeAdjustment := some annualizedNetIncomeBeforeAdjustment
      annualizedNetIncomeAfterAdjustment := some annualizedNetIncomeAfterAdjustment
      baseTaxAfter := some baseTaxAfter
      taxCreditAmountAfter := some taxCreditAmountAfter
      taxAfterCredit := some taxAfterCredit
      finalTaxBefore := some finalTaxBefore
      finalTaxAfter := some finalTaxAfter
      taxSavings := some taxSavings
      safeProfit := some safeProfit
      profitMargin := some profitMargin }

/-- The million-unit revision of `calculateAllMetrics` (unnamed source
revisions, lines 16–86): identical except that each parsed field is
multiplied by `MILLION = 1000000` before use. -/
def calculateAllMetricsMillions (data : YearData) (settlementMonth : ℚ)
    (entityType : Option EntityType) (includeLocalTax : Bool)
    (taxCreditRate : ℚ) (industry : String) : CalculationResult :=
  match entityType with
  | none => emptyCalculationResult
  | some entityType =>
    let MILLION : ℚ := 1000000
    let numRevenue := numValue data.revenue * MILLION
    let numCogs := numValue data.cogs * MILLION
    let numSga := numValue data.sga * MILLION
    let numNonOpIncome := numValue data.nonOpIncome * MILLION
    let numNonOpExpense := numValue data.nonOpExpense * MILLION
    let numAdditionalExpenses := numValue data.additionalExpenses * MILLION
    let factor := annualizationFactor settlementMonth
    let grossProfit := numRevenue - numCogs
    let operatingIncome := grossProfit - numSga
    let currentNetIncomeBeforeAdjustment := operatingIncome + numNonOpIncome - numNonOpExpense
    let currentNetIncomeAfterAdjustment := currentNetIncomeBeforeAdjustment - numAdditionalExpenses
    let annualizedRevenue := numRevenue * factor
    let annualizedCogs := numCogs * factor
    let annualizedSga := numSga * factor
    let annualizedNonOpIncome := numNonOpIncome * factor
    let annualizedNonOpExpense := numNonOpExpense * factor
    let annualizedGrossProfit := grossProfit * factor
    let annualizedOperatingIncome := operatingIncome * factor
    let annualizedNetIncomeBeforeAdjustment :=
      annualizedOperatingIncome + annualizedNonOpIncome - annualizedNonOpExpense
    let annualizedNetIncomeAfterAdjustment :=
      annualizedNetIncomeBeforeAdjustment - numAdditionalExpenses
    let deduction := if entityType = EntityType.individual then BASIC_DEDUCTION else 0
    let taxableIncomeBefore := max 0 (annualizedNetIncomeBeforeAdjustment - deduction)
    let baseTaxBefore := calculateTaxFor entityType taxableIncomeBefore
    let taxableIncomeAfter := max 0 (annualizedNetIncomeAfterAdjustment - deduction)
    let baseTaxAfter := calculateTaxFor entityType taxableIncomeAfter
    let taxCreditAmountAfter := baseTaxAfter * taxCreditRate
    let taxAfterCredit := baseTaxAfter - taxCreditAmountAfter
    let finalTaxBefore := (baseTaxBefore * (1 - taxCreditRate)) * (if includeLocalTax then 1.1 else 1)
    let finalTaxAfter := taxAfterCredit * (if includeLocalTax then 1.1 else 1)
    let taxSavings := finalTaxBefore - finalTaxAfter
    let profitMargin := profitMarginFor industry entityType
    let safeProfit := annualizedRevenue * profitMargin
    { numRevenue := some numRevenue
      numCogs := some numCogs
      grossProfit := some grossProfit
      numSga := some numSga
      operatingIncome := some operatingIncome
      numNonOpIncome := some numNonOpIncome
      numNonOpExpense := some numNonOpExpense
      numAdditionalExpenses := some numAdditionalExpenses
      currentNetIncomeBeforeAdjustment := some currentNetIncomeBeforeAdjustment
      currentNetIncomeAfterAdjustment := some currentNetIncomeAfterAdjustment
      annualizedRevenue := some annualizedRevenue
      annualizedCogs := some annualizedCogs
      annualizedGrossProfit := some annualizedGrossProfit
      annualizedSga := some annualizedSga
      annualizedOperatingIncome := some annualizedOperatingIncome
      annualizedNonOpIncome := some annualizedNonOpIncome
      annualizedNonOpExpense := some annualizedNonOpExpense
      annualizedNetIncomeBeforeAdjustment := some annualizedNetIncomeBeforeAdjustment
      annualizedNetIncomeAfterAdjustment := some annualizedNetIncomeAfterAdjustment
      baseTaxAfter := some baseTaxAfter
      taxCreditAmountAfter := some taxCreditAmountAfter
      taxAfterCredit := some taxAfterCredit
      finalTaxBefore := some finalTaxBefore
      finalTaxAfter := some finalTaxAfter
      taxSavings := some taxSavings
      safeProfit := some safeProfit
      profitMargin := some profitMargin }


/-- The six-field input record scaled from "millions" units to raw currency
units: each numeric field value multiplied by `1000000` (a blank/invalid
field stays blank/invalid). -/
def scaleMillion (d : YearData) : YearData :=
  ⟨d.revenue.map (fun v => v * 1000000),
   d.cogs.map (fun v => v * 1000000),
   d.sga.map (fun v => v * 1000000),
   d.nonOpIncome.map (fun v => v * 1000000),
   d.nonOpExpense.map (fun v => v * 1000000),
   d.additionalExpenses.map (fun v => v * 1000000)⟩

/-- Replace every blank or non-numeric field by the literal string "0":
each field becomes the definite numeric value it already coerces to. -/
def normalizeYearData (d : YearData) : YearData :=
  ⟨some (numValue d.revenue),
   some (numValue d.cogs),
   some (numValue d.sga),
   some (numValue d.nonOpIncome),
   some (numValue d.nonOpExpense),
   some (numValue d.additionalExpenses)⟩

/-- Every field of the result record is present (`some`). -/
def CalculationResult.allDefined (r : CalculationResult) : Bool :=
  r.numRevenue.isSome && r.numCogs.isSome && r.grossProfit.isSome && r.numSga.isSome &&
  r.operatingIncome.isSome && r.numNonOpIncome.isSome && r.numNonOpExpense.isSome &&
  r.numAdditionalExpenses.isSome && r.currentNetIncomeBeforeAdjustment.isSome &&
  r.currentNetIncomeAfterAdjustment.isSome && r.annualizedRevenue.isSome &&
  r.annualizedCogs.isSome && r.annualizedGrossProfit.isSome && r.annualizedSga.isSome &&
  r.annualizedOperatingIncome.isSome && r.annualizedNonOpIncome.isSome &&
  r.annualizedNonOpExpense.isSome && r.annualizedNetIncomeBeforeAdjustment.isSome &&
  r.annualizedNetIncomeAfterAdjustment.isSome && r.baseTaxAfter.isSome &&
  r.taxCreditAmountAfter.isSome && r.taxAfterCredit.isSome && r.finalTaxBefore.isSome &&
  r.finalTaxAfter.isSome && r.taxSavings.isSome && r.safeProfit.isSome && r.profitMargin.isSome

/-- Every field of the result record is absent (`none`/undefined). -/
def CalculationResult.allUndefined (r : CalculationResult) : Bool :=
  r.numRevenue.isNone && r.numCogs.isNone && r.grossProfit.isNone && r.numSga.isNone &&
  r.operatingIncome.isNone && r.numNonOpIncome.isNone && r.numNonOpExpense.isNone &&
  r.numAdditionalExpenses.isNone && r.currentNetIncomeBeforeAdjustment.isNone &&
  r.currentNetIncomeAfterAdjustment.isNone && r.annualizedRevenue.isNone &&
  r.annualizedCogs.isNone && r.annualizedGrossProfit.isNone && r.annualizedSga.isNone &&
  r.annualizedOperatingIncome.isNone && r.annualizedNonOpIncome.isNone &&
  r.annualizedNonOpExpense.isNone && r.annualizedNetIncomeBeforeAdjustment.isNone &&
  r.annualizedNetIncomeAfterAdjustment.isNone && r.baseTaxAfter.isNone &&
  r.taxCreditAmountAfter.isNone && r.taxAfterCredit.isNone && r.finalTaxBefore.isNone &&
  r.finalTaxAfter.isNone && r.taxSavings.isNone && r.safeProfit.isNone && r.profitMargin.isNone

/-- The specification's description of bracket selection: the first bracket,
in ascending order, whose upper limit accommodates the income, with the last
(unbounded) bracket as the fallback when none matches. -/
def firstMatchingBracket (entityType : EntityType) (income : ℚ) : TaxBracket :=
  ((bracketsFor entityType).find? (withinLimit income)).getD
    ((bracketsFor entityType).getLastD ⟨none, 0, 0⟩)

/-- At every finite bracket boundary of the table, the closed-form value
`limit * rate - deduction` computed from the two adjacent brackets agrees. -/
def boundariesAgree : List TaxBracket → Bool
  | b :: b' :: rest =>
    (match b.limit with
     | some l => decide (l * b.rate - b.deduction = l * b'.rate - b'.deduction)
     | none => true) && boundariesAgree (b' :: rest)
  | _ => true

lemma findBracket_eq_find (x : ℚ) :
    ∀ (l : List TaxBracket) (d : TaxBracket),
      findBracket x l d = (l.find? (withinLimit x)).getD d := by
  intro l d
  induction l with
  | nil => rfl
  | cons b rest ih =>
    simp only [findBracket, List.find?]
    cases hb : withinLimit x b <;> simp [hb, ih]

lemma getD_map_mul (c : ℚ) : ∀ o : Option ℚ, (o.map (fun v => v * c)).getD 0 = o.getD 0 * c := by
  intro o
  cases o <;> simp

set_option maxHeartbeats 1000000 in
lemma calculateTaxFor_individual_eq (x : ℚ) :
    calculateTaxFor EntityType.individual x =
      if x ≤ 0 then 0
      else if x ≤ 14000000 then x * 0.06 - 0
      else if x ≤ 50000000 then x * 0.15 - 1260000
      else if x ≤ 88000000 then x * 0.24 - 5760000
      else if x ≤ 150000000 then x * 0.35 - 15440000
      else if x ≤ 300000000 then x * 0.38 - 19940000
      else if x ≤ 500000000 then x * 0.40 - 25940000
      else if x ≤ 1000000000 then x * 0.42 - 35940000
      else x * 0.45 - 65940000 := by
  simp only [calculateTaxFor, bracketsFor, INDIVIDUAL_TAX_BRACKETS, findBracket, withinLimit,
    List.getLastD, decide_eq_true_eq, if_true]
  split_ifs <;> norm_num

set_option maxHeartbeats 1000000 in
lemma calculateTaxFor_corporate_eq (x : ℚ) :
    calculateTaxFor EntityType.corporate x =
      if x ≤ 0 then 0
      else if x ≤ 200000000 then x * 0.09 - 0
      else if x ≤ 20000000000 then x * 0.19 - 20000000
      else if x ≤ 300000000000 then x * 0.21 - 420000000
      else x * 0.24 - 9420000000 := by
  simp only [calculateTaxFor, bracketsFor, CORPORATE_TAX_BRACKETS, findBracket, withinLimit,
    List.getLastD, decide_eq_true_eq, if_true]
  split_ifs <;> norm_num

set_option maxHeartbeats 1600000 in
lemma taxI_mono : ∀ x y : ℚ, x ≤ y →
    calculateTaxFor EntityType.individual x ≤ calculateTaxFor EntityType.individual y := by
  intro x y h
  rw [calculateTaxFor_individual_eq, calculateTaxFor_individual_eq]
  split_ifs <;> linarith

set_option maxHeartbeats 1000000 in
lemma taxC_mono : ∀ x y : ℚ, x ≤ y →
    calculateTaxFor EntityType.corporate x ≤ calculateTaxFor EntityType.corporate y := by
  intro x y h
  rw [calculateTaxFor_corporate_eq, calculateTaxFor_corporate_eq]
  split_ifs <;> linarith

lemma taxI_nonneg : ∀ x : ℚ, 0 ≤ calculateTaxFor EntityType.individual x := by
  intro x
  rw [calculateTaxFor_individual_eq]
  split_ifs <;> linarith

lemma taxC_nonneg : ∀ x : ℚ, 0 ≤ calculateTaxFor EntityType.corporate x := by
  intro x
  rw [calculateTaxFor_corporate_eq]
  split_ifs <;> linarith

lemma boundariesAgree_individual : boundariesAgree INDIVIDUAL_TAX_BRACKETS = true := by
  norm_num [boundariesAgree, INDIVIDUAL_TAX_BRACKETS]

lemma boundariesAgree_corporate : boundariesAgree CORPORATE_TAX_BRACKETS = true := by
  norm_num [boundariesAgree, CORPORATE_TAX_BRACKETS]

/-- The six-field input record of the specification's end-to-end scenario:
revenue 100,000,000; cogs 40,000,000; sga 20,000,000; nonOpIncome 1,000,000;
nonOpExpense 500,000; additionalExpenses 1,000,000. -/
def scenarioInput : YearData :=
  ⟨some 100000000, some 40000000, some 20000000, some 1000000, some 500000, some 1000000⟩

lemma savings_nonneg_aux (ta tb cr m : ℚ) (h : ta ≤ tb) (h1 : cr ≤ 1) (hm : 0 ≤ m) :
    0 ≤ tb * (1 - cr) * m - (ta - ta * cr) * m := by
  nlinarith [mul_nonneg (mul_nonneg (sub_nonneg.2 h) (sub_nonneg.2 h1)) hm]

/-- C1: for revenue=100,000,000, cogs=40,000,000, sga=20,000,000,
nonOpIncome=1,000,000, nonOpExpense=500,000, additionalExpenses=1,000,000,
settlementMonths=12, Individual entity, no local tax, creditRate 0, industry
with individual margin 0.117 (도소매업), `calculateAllMetrics` returns
grossProfit=60,000,000, operatingIncome=40,000,000,
netIncomeBeforeAdjustment=40,500,000, netIncomeAfterAdjustment=39,500,000,
baseTaxAfter=4,440,000, finalTaxAfter=4,440,000, safeProfit=11,700,000. -/
theorem C1_end_to_end_scenario :
    (calculateAllMetrics scenarioInput 12 (some EntityType.individual) false 0
        "도소매업").grossProfit = some 60000000 ∧
    (calculateAllMetrics scenarioInput 12 (some EntityType.individual) false 0
        "도소매업").operatingIncome = some 40000000 ∧
    (calculateAllMetrics scenarioInput 12 (some EntityType.individual) false 0
        "도소매업").currentNetIncomeBeforeAdjustment = some 40500000 ∧
    (calculateAllMetrics scenarioInput 12 (some EntityType.individual) false 0
        "도소매업").currentNetIncomeAfterAdjustment = some 39500000 ∧
    (calculateAllMetrics scenarioInput 12 (some EntityType.individual) false 0
        "도소매업").baseTaxAfter = some 4440000 ∧
    (calculateAllMetrics scenarioInput 12 (some EntityType.individual) false 0
        "도소매업").finalTaxAfter = some 4440000 ∧
    (calculateAllMetrics scenarioInput 12 (some EntityType.individual) false 0
        "도소매업").safeProfit = some 11700000 := by
  norm_num [calculateAllMetrics, scenarioInput, numValue, annualizationFactor, BASIC_DEDUCTION,
    calculateTaxFor, findBracket, withinLimit, bracketsFor, INDIVIDUAL_TAX_BRACKETS,
    List.getLastD, profitMarginFor, INDUSTRY_PROFIT_MARGINS, List.lookup]

/-- C2: the bracket tax function returns 0 for any taxable income ≤ 0; for
positive income it returns `income * rate - deduction` of the first bracket
(ascending) whose upper limit is ≥ the income, falling back to the last
unbounded bracket; in particular the Individual table gives 840,000 at
exactly 14,000,000 and 0.15 × 14,000,001 − 1,260,000 at 14,000,001. -/
theorem C2_bracket_selection :
    (∀ (et : EntityType) (income : ℚ), income ≤ 0 → calculateTaxFor et income = 0) ∧
    (∀ (et : EntityType) (income : ℚ), 0 < income →
      calculateTaxFor et income =
        income * (firstMatchingBracket et income).rate -
          (firstMatchingBracket et income).deduction) ∧
    calculateTaxFor EntityType.individual 14000000 = 840000 ∧
    calculateTaxFor EntityType.individual 14000001 = 0.15 * 14000001 - 1260000 := by
  refine ⟨?_, ?_, ?_, ?_⟩
  · intro et income h
    simp [calculateTaxFor, h]
  · intro et income h
    simp only [calculateTaxFor, firstMatchingBracket, findBracket_eq_find,
      if_neg (not_le.mpr h)]
  · norm_num [calculateTaxFor, findBracket, withinLimit, bracketsFor,
      INDIVIDUAL_TAX_BRACKETS, List.getLastD]
  · norm_num [calculateTaxFor, findBracket, withinLimit, bracketsFor,
      INDIVIDUAL_TAX_BRACKETS, List.getLastD]

/-- Witness for C2 at concrete inputs: income −1 (≤ 0) yields 0, and income
14,000,001 (> 0) matches the first-matching-bracket closed form. -/
theorem C2_bracket_selection_witness :
    ((-1 : ℚ) ≤ 0 ∧ calculateTaxFor EntityType.individual (-1) = 0) ∧
    ((0 : ℚ) < 14000001 ∧
      calculateTaxFor EntityType.individual 14000001 =
        14000001 * (firstMatchingBracket EntityType.individual 14000001).rate -
          (firstMatchingBracket EntityType.individual 14000001).deduction) :=
  ⟨⟨by norm_num, C2_bracket_selection.1 EntityType.individual (-1) (by norm_num)⟩,
   ⟨by norm_num, C2_bracket_selection.2.1 EntityType.individual 14000001 (by norm_num)⟩⟩

/-- C3: for every input and settlement-month count, the annualized
after-adjustment income is the annualized before-adjustment income minus the
raw (non-annualized) additional-expenses value, while every other input line
and subtotal is multiplied by the annualization factor. -/
theorem C3_additional_expenses_not_annualized (data : YearData) (sm : ℚ)
    (et : EntityType) (lt : Bool) (cr : ℚ) (ind : String) :
    let r := calculateAllMetrics data sm (some et) lt cr ind
    let f := annualizationFactor sm
    r.annualizedNetIncomeAfterAdjustment =
      r.annualizedNetIncomeBeforeAdjustment.map
        (fun v => v - numValue data.additionalExpenses) ∧
    r.annualizedRevenue = r.numRevenue.map (fun v => v * f) ∧
    r.annualizedCogs = r.numCogs.map (fun v => v * f) ∧
    r.annualizedSga = r.numSga.map (fun v => v * f) ∧
    r.annualizedNonOpIncome = r.numNonOpIncome.map (fun v => v * f) ∧
    r.annualizedNonOpExpense = r.numNonOpExpense.map (fun v => v * f) ∧
    r.annualizedGrossProfit = r.grossProfit.map (fun v => v * f) ∧
    r.annualizedOperatingIncome = r.operatingIncome.map (fun v => v * f) ∧
    r.annualizedNetIncomeBeforeAdjustment =
      r.currentNetIncomeBeforeAdjustment.map (fun v => v * f) := by
  refine ⟨?_, ?_, ?_, ?_, ?_, ?_, ?_, ?_, ?_⟩ <;>
    simp only [calculateAllMetrics, Option.map_some'] <;> congr 1 <;> ring

/-- C4: the million-unit revision of `calculateAllMetrics` agrees with the
raw-unit revision applied to the same input record with each of the six
numeric field values multiplied by 1,000,000, for every configuration. -/
theorem C4_revision_equivalence (data : YearData) (sm : ℚ) (et : Option EntityType)
    (lt : Bool) (cr : ℚ) (ind : String) :
    calculateAllMetricsMillions data sm et lt cr ind =
      calculateAllMetrics (scaleMillion data) sm et lt cr ind := by
  cases et with
  | none => rfl
  | some et =>
    simp only [calculateAllMetrics, calculateAllMetricsMillions, scaleMillion, numValue,
      getD_map_mul]

/-- C5: with a non-unset entity type, finalTaxAfter equals
baseTaxAfter × (1 − creditRate) × (1.1 if includeLocalTax else 1);
flipping includeLocalTax on multiplies finalTaxAfter by exactly 1.1, and
creditRate = 1 forces finalTaxAfter to 0. -/
theorem C5_final_tax_formula (data : YearData) (sm : ℚ) (et : EntityType)
    (lt : Bool) (cr : ℚ) (ind : String) :
    (calculateAllMetrics data sm (some et) lt cr ind).finalTaxAfter =
      ((calculateAllMetrics data sm (some et) lt cr ind).baseTaxAfter).map
        (fun b => b * (1 - cr) * (if lt then 1.1 else 1)) ∧
    (calculateAllMetrics data sm (some et) true cr ind).finalTaxAfter =
      ((calculateAllMetrics data sm (some et) false cr ind).finalTaxAfter).map
        (fun v => 1.1 * v) ∧
    (calculateAllMetrics data sm (some et) lt 1 ind).finalTaxAfter = some 0 := by
  refine ⟨?_, ?_, ?_⟩
  · simp only [calculateAllMetrics, Option.map_some']
    congr 1
    ring
  · simp only [calculateAllMetrics, Option.map_some', eq_self_iff_true, if_true,
      Bool.false_eq_true, if_false]
    congr 1
    ring
  · simp only [calculateAllMetrics, Option.map_some']
    congr 1
    ring

/-- C6: an unset entity type yields the empty result with every field
undefined, regardless of the other inputs, and any Individual or Corporate
entity type yields a result with every field defined. -/
theorem C6_unset_short_circuit :
    emptyCalculationResult.allUndefined = true ∧
    (∀ (data : YearData) (sm : ℚ) (lt : Bool) (cr : ℚ) (ind : String),
      calculateAllMetrics data sm none lt cr ind = emptyCalculationResult) ∧
    (∀ (data : YearData) (sm : ℚ) (et : EntityType) (lt : Bool) (cr : ℚ) (ind : String),
      (calculateAllMetrics data sm (some et) lt cr ind).allDefined = true) := by
  refine ⟨rfl, fun _ _ _ _ _ => rfl, fun data sm et lt cr ind => ?_⟩
  simp [calculateAllMetrics, CalculationResult.allDefined]

/-- C7: blank/non-numeric fields coerce to 0 — replacing every such field by
the definite value 0 leaves the whole result unchanged — and an industry key
absent from the benchmark table yields profitMargin 0 and safeProfit 0
rather than an error. -/
theorem C7_defensive_coercion :
    (∀ (data : YearData) (sm : ℚ) (et : Option EntityType) (lt : Bool) (cr : ℚ) (ind : String),
      calculateAllMetrics (normalizeYearData data) sm et lt cr ind =
        calculateAllMetrics data sm et lt cr ind) ∧
    (∀ (data : YearData) (sm : ℚ) (et : EntityType) (lt : Bool) (cr : ℚ) (ind : String),
      INDUSTRY_PROFIT_MARGINS.lookup ind = none →
      (calculateAllMetrics data sm (some et) lt cr ind).profitMargin = some 0 ∧
      (calculateAllMetrics data sm (some et) lt cr ind).safeProfit = some 0) := by
  constructor
  · intro data sm et lt cr ind
    cases et with
    | none => rfl
    | some et => simp only [calculateAllMetrics, normalizeYearData, numValue, Option.getD_some]
  · intro data sm et lt cr ind h
    constructor <;> simp [calculateAllMetrics, profitMarginFor, h]

/-- Witness for C7 at a concrete unknown industry key. -/
theorem C7_defensive_coercion_witness :
    INDUSTRY_PROFIT_MARGINS.lookup "광업" = none ∧
    (calculateAllMetrics ⟨none, none, none, none, none, none⟩
      12 (some EntityType.individual) false 0 "광업").profitMargin = some 0 ∧
    (calculateAllMetrics ⟨none, none, none, none, none, none⟩
      12 (some EntityType.individual) false 0 "광업").safeProfit = some 0 := by
  have h : INDUSTRY_PROFIT_MARGINS.lookup "광업" = none := by decide
  exact ⟨h,
    (C7_defensive_coercion.2 ⟨none, none, none, none, none, none⟩
      12 EntityType.individual false 0 "광업" h).1,
    (C7_defensive_coercion.2 ⟨none, none, none, none, none, none⟩
      12 EntityType.individual false 0 "광업" h).2⟩

/-- C8: zero settlement months gives annualization factor 0 with no
division, so every annualized field is 0 except the after-adjustment income,
which is 0 minus the raw additional-expenses value. -/
theorem C8_zero_settlement_months (data : YearData) (et : EntityType)
    (lt : Bool) (cr : ℚ) (ind : String) :
    annualizationFactor 0 = 0 ∧
    (let r := calculateAllMetrics data 0 (some et) lt cr ind
     r.annualizedRevenue = some 0 ∧
     r.annualizedCogs = some 0 ∧
     r.annualizedSga = some 0 ∧
     r.annualizedNonOpIncome = some 0 ∧
     r.annualizedNonOpExpense = some 0 ∧
     r.annualizedGrossProfit = some 0 ∧
     r.annualizedOperatingIncome = some 0 ∧
     r.annualizedNetIncomeBeforeAdjustment = some 0 ∧
     r.annualizedNetIncomeAfterAdjustment = some (0 - numValue data.additionalExpenses)) := by
  constructor
  · norm_num [annualizationFactor]
  · refine ⟨?_, ?_, ?_, ?_, ?_, ?_, ?_, ?_, ?_⟩ <;>
      simp only [calculateAllMetrics] <;> norm_num [annualizationFactor]

/-- C9: for both fixed bracket tables, adjacent brackets agree exactly at
every finite boundary under the closed form `limit × rate − deduction`, and
the bracket tax function is monotone nondecreasing and never negative. -/
theorem C9_bracket_tax_monotone_nonneg :
    boundariesAgree INDIVIDUAL_TAX_BRACKETS = true ∧
    boundariesAgree CORPORATE_TAX_BRACKETS = true ∧
    (∀ x y : ℚ, x ≤ y →
      calculateTaxFor EntityType.individual x ≤ calculateTaxFor EntityType.individual y) ∧
    (∀ x y : ℚ, x ≤ y →
      calculateTaxFor EntityType.corporate x ≤ calculateTaxFor EntityType.corporate y) ∧
    (∀ x : ℚ, 0 ≤ calculateTaxFor EntityType.individual x) ∧
    (∀ x : ℚ, 0 ≤ calculateTaxFor EntityType.corporate x) :=
  ⟨boundariesAgree_individual, boundariesAgree_corporate,
   taxI_mono, taxC_mono, taxI_nonneg, taxC_nonneg⟩

/-- Witness for C9: monotonicity applied across a bracket boundary for each
table. -/
theorem C9_bracket_tax_monotone_nonneg_witness :
    ((10000000 : ℚ) ≤ 20000000 ∧
      calculateTaxFor EntityType.individual 10000000 ≤
        calculateTaxFor EntityType.individual 20000000) ∧
    ((100000000 : ℚ) ≤ 300000000 ∧
      calculateTaxFor EntityType.corporate 100000000 ≤
        calculateTaxFor EntityType.corporate 300000000) :=
  ⟨⟨by norm_num,
    C9_bracket_tax_monotone_nonneg.2.2.1 10000000 20000000 (by norm_num)⟩,
   ⟨by norm_num,
    C9_bracket_tax_monotone_nonneg.2.2.2.1 100000000 300000000 (by norm_num)⟩⟩

/-- C10: with nonnegative parsed additional expenses and a credit rate in
[0, 1], the tax savings `finalTaxBefore − finalTaxAfter` is never negative:
deducting additional expenses never increases the final tax. -/
theorem C10_tax_savings_nonneg (data : YearData) (sm : ℚ) (et : EntityType)
    (lt : Bool) (cr : ℚ) (ind : String)
    (hadd : 0 ≤ numValue data.additionalExpenses) (hcr0 : 0 ≤ cr) (hcr1 : cr ≤ 1) :
    0 ≤ ((calculateAllMetrics data sm (some et) lt cr ind).taxSavings).getD 0 := by
  have hmono : ∀ a b : ℚ, a ≤ b → calculateTaxFor et a ≤ calculateTaxFor et b := by
    cases et
    · exact taxI_mono
    · exact taxC_mono
  simp only [calculateAllMetrics, Option.getD_some]
  refine savings_nonneg_aux _ _ _ _ (hmono _ _ ?_) hcr1 ?_
  · exact max_le_max le_rfl (by linarith)
  · split_ifs <;> norm_num

/-- Witness for C10 at a concrete input with positive additional expenses
and credit rate 0. -/
theorem C10_tax_savings_nonneg_witness :
    (0 : ℚ) ≤ numValue (some (1000000 : ℚ)) ∧ (0 : ℚ) ≤ 0 ∧ (0 : ℚ) ≤ 1 ∧
    0 ≤ ((calculateAllMetrics
      ⟨some 100000000, some 40000000, some 20000000, some 1000000, some 500000, some 1000000⟩
      12 (some EntityType.individual) false 0 "도소매업").taxSavings).getD 0 :=
  ⟨by norm_num [numValue], le_refl 0, by norm_num,
   C10_tax_savings_nonneg
     ⟨some 100000000, some 40000000, some 20000000, some 1000000, some 500000, some 1000000⟩
     12 EntityType.individual false 0 "도소매업"
     (by norm_num [numValue]) (le_refl 0) (by norm_num)⟩
